import Mathlib

/-!
Verification of the risk evaluation engine of the Disaster-Management
repository (`backend/functions/risk_engine.py`), shallowly embedded in Lean.

Modelling conventions:
* Timestamps are rationals measured in hours (the Python code converts
  `timedelta.total_seconds() / 3600`; we work in hours directly).
* Numeric observation fields (`temp`, `wind_speed`, `rain_1h`) are `Option ℚ`:
  `none` models an absent dictionary key, and `Option.getD 0` models
  `obj.get(key, 0)`.
* A stored timestamp value is either a string — which `datetime.fromisoformat`
  either parses to a time or raises on — or a datetime object. A missing or
  falsy (empty-string) value is `none`. `parse_ts` returns `Except Unit ℚ`:
  `.error ()` models the `ValueError` raised by `fromisoformat` on an
  unparseable string.
* Python `round(x, 2)` and the `:.1f` format directive round half to even;
  `roundHalfEven` / `pyRound` model that exactly on ℚ.
* The human-readable reason strings are modelled by the inductive `Reason`,
  one constructor per f-string template in the source, carrying the numeric
  value interpolated into the string (after the `:.1f` rounding where the
  source applies it).
* The empty-history return dictionary in the source has no
  `persistence_duration_hrs` key, so that field is `Option ℚ` in the output
  record (`none` in the empty case).
-/

namespace DisasterManagement

/-- `FLOOD_RAIN_THRESHOLD = 50.0` (mm per hour). -/
def FLOOD_RAIN_THRESHOLD : ℚ := 50

/-- `CYCLONE_WIND_THRESHOLD = 70.0` (km/h). -/
def CYCLONE_WIND_THRESHOLD : ℚ := 70

/-- `HEATWAVE_TEMP_THRESHOLD = 40.0` (Celsius). -/
def HEATWAVE_TEMP_THRESHOLD : ℚ := 40

/-- A timestamp value stored on an observation record: either a string (which
parses to a time in hours, or fails to parse, modelling the `ValueError` of
`datetime.fromisoformat`), or a datetime object carrying its time. -/
inductive TSVal where
  | strTS (parsed : Option ℚ) : TSVal
  | dtTS (t : ℚ) : TSVal
deriving DecidableEq, Repr

/-- One weather observation dictionary. `none` models a missing key (for the
timestamp fields, also a present-but-falsy value such as an empty string,
which Python's `or` skips over). -/
structure Obs where
  temp : Option ℚ := none
  wind_speed : Option ℚ := none
  rain_1h : Option ℚ := none
  timestamp : Option TSVal := none
  captured_at : Option TSVal := none
deriving DecidableEq, Repr

/-- `ts = obj.get('timestamp') or obj.get('captured_at')`. -/
def get_ts (obj : Obs) : Option TSVal :=
  match obj.timestamp with
  | some v => some v
  | none => obj.captured_at

/-- The inner helper `parse_ts` of `evaluate_risk`: a missing/falsy timestamp
falls back to `now`; a parseable string or a datetime yields its time; an
unparseable string raises (`.error ()`). -/
def parse_ts (now : ℚ) (obj : Obs) : Except Unit ℚ :=
  match get_ts obj with
  | none => .ok now
  | some (.strTS none) => .error ()
  | some (.strTS (some t)) => .ok t
  | some (.dtTS t) => .ok t

/-- The `risk_level` values the engine produces. -/
inductive RiskLevel where
  | UNKNOWN | LOW | MEDIUM | HIGH
deriving DecidableEq, Repr

/-- The `disaster_type` values the engine produces. -/
inductive DisasterType where
  | NONE | HEATWAVE | CYCLONE | FLOOD | HEAVY_RAIN
deriving DecidableEq, Repr

/-- The reason strings of the source, one constructor per template, carrying
the numeric values interpolated into the f-string. -/
inductive Reason where
  | noData : Reason
  | normalLimits : Reason
  | heatwaveCritical (durationHrs : ℚ) : Reason
  | heatwaveWarning (tempC : ℚ) : Reason
  | cycloneAlert (windKmh : ℚ) : Reason
  | floodAlert (rainMmH : ℚ) : Reason
  | heavyRainWarning (total3h : ℚ) : Reason
deriving DecidableEq, Repr

/-- Python's two-argument `max` builtin: `max(a, b)` returns `b` when
`b > a` and `a` otherwise (the numeric value agrees with `Max.max`). -/
def pymax (a b : ℚ) : ℚ :=
  if a < b then b else a

/-- Round to the nearest integer, ties to even — the rounding used by
Python's `round` builtin and the `:.1f` format directive. -/
def roundHalfEven (x : ℚ) : ℤ :=
  if x - ⌊x⌋ < 1 / 2 then ⌊x⌋
  else if 1 / 2 < x - ⌊x⌋ then ⌊x⌋ + 1
  else if 2 ∣ ⌊x⌋ then ⌊x⌋ else ⌊x⌋ + 1

/-- Python `round(x, ndigits)` on rationals. -/
def pyRound (ndigits : ℕ) (x : ℚ) : ℚ :=
  (roundHalfEven (x * 10 ^ ndigits) : ℚ) / 10 ^ ndigits

/-- The heatwave persistence scan of `evaluate_risk`:
`for obs in history: if obs.get('temp', 0) > T: start_time = parse_ts(obs)
else: break`, threaded through `Except` because `parse_ts` can raise. -/
def scanHeatwaveStart (now : ℚ) : List Obs → ℚ → Except Unit ℚ
  | [], start_time => .ok start_time
  | obs :: rest, start_time =>
    if obs.temp.getD 0 > HEATWAVE_TEMP_THRESHOLD then
      match parse_ts now obs with
      | .error e => .error e
      | .ok t => scanHeatwaveStart now rest t
    else
      .ok start_time

/-- The local variables of `evaluate_risk` just before its return statement:
classification outcome and the unrounded `duration_hrs` and `confidence`. -/
structure CoreResult where
  risk_level : RiskLevel
  disaster_type : DisasterType
  reason : Reason
  duration_hrs : ℚ
  confidence : ℚ
deriving DecidableEq, Repr

/-- The body of `evaluate_risk` for a non-empty history (`latest` is
`history[0]`; `history` is passed whole because the persistence scan and the
3-hour rain sum iterate over it from the front). Mirrors the source
line by line, before the final `round(..., 2)` calls. -/
def classify (now : ℚ) (history : List Obs) (latest : Obs) :
    Except Unit CoreResult :=
  match parse_ts now latest with
  | .error e => .error e
  | .ok last_update =>
    let time_gap_hrs := now - last_update
    let confidence := pymax 0 (1 - time_gap_hrs / 6)
    if latest.temp.getD 0 > HEATWAVE_TEMP_THRESHOLD then
      match scanHeatwaveStart now history last_update with
      | .error e => .error e
      | .ok start_time =>
        let duration_hrs := pymax 0 (last_update - start_time)
        if duration_hrs ≥ 6 then
          .ok ⟨.HIGH, .HEATWAVE, .heatwaveCritical (pyRound 1 duration_hrs),
            duration_hrs, confidence⟩
        else
          -- the source reads `latest['temp']` here; the guard ensures the key
          -- is present, so this equals `latest.temp.getD 0`
          .ok ⟨.MEDIUM, .HEATWAVE, .heatwaveWarning (latest.temp.getD 0),
            duration_hrs, confidence⟩
    else if latest.wind_speed.getD 0 > CYCLONE_WIND_THRESHOLD then
      .ok ⟨.HIGH, .CYCLONE, .cycloneAlert (latest.wind_speed.getD 0),
        0, confidence⟩
    else if latest.rain_1h.getD 0 > FLOOD_RAIN_THRESHOLD then
      .ok ⟨.HIGH, .FLOOD, .floodAlert (latest.rain_1h.getD 0), 0, confidence⟩
    else
      let rain_total_3h := ((history.take 3).map (fun o => o.rain_1h.getD 0)).sum
      if rain_total_3h > FLOOD_RAIN_THRESHOLD then
        .ok ⟨.MEDIUM, .HEAVY_RAIN, .heavyRainWarning (pyRound 1 rain_total_3h),
          0, confidence⟩
      else
        .ok ⟨.LOW, .NONE, .normalLimits, 0, confidence⟩

/-- The returned assessment dictionary. `persistence_duration_hrs` is `none`
in the empty-history case, whose return dictionary lacks that key. -/
structure RiskAssessment where
  risk_level : RiskLevel
  disaster_type : DisasterType
  reason : Reason
  persistence_duration_hrs : Option ℚ
  confidence_score : ℚ
deriving DecidableEq, Repr

/-- `evaluate_risk(history)` with the evaluation time `now` made explicit.
An empty history short-circuits to the UNKNOWN result; otherwise the
classification runs and the two numeric outputs are rounded to 2 decimal
places at the return statement, exactly as in the source. -/
def evaluate_risk (now : ℚ) (history : List Obs) :
    Except Unit RiskAssessment :=
  match history with
  | [] => .ok ⟨.UNKNOWN, .NONE, .noData, none, 0⟩
  | latest :: rest =>
    match classify now (latest :: rest) latest with
    | .error e => .error e
    | .ok c =>
      .ok ⟨c.risk_level, c.disaster_type, c.reason,
        some (pyRound 2 c.duration_hrs), pyRound 2 c.confidence⟩


/-! ## General lemmas about the embedded arithmetic helpers -/

lemma pymax_eq_max (a b : ℚ) : pymax a b = max a b := by
  unfold pymax
  rcases lt_or_ge a b with h | h
  · rw [if_pos h, max_eq_right h.le]
  · rw [if_neg (not_lt.mpr h), max_eq_left h]

lemma pymax_nonneg (b : ℚ) : 0 ≤ pymax 0 b := by
  rw [pymax_eq_max]; exact le_max_left 0 b

lemma pymax_le {a b c : ℚ} (ha : a ≤ c) (hb : b ≤ c) : pymax a b ≤ c := by
  rw [pymax_eq_max]; exact max_le ha hb

lemma floor_le_roundHalfEven (x : ℚ) : ⌊x⌋ ≤ roundHalfEven x := by
  unfold roundHalfEven
  split
  · exact le_refl _
  · split
    · omega
    · split
      · exact le_refl _
      · omega

lemma abs_roundHalfEven_sub_le (x : ℚ) :
    |(roundHalfEven x : ℚ) - x| ≤ 1 / 2 := by
  have h0 : (⌊x⌋ : ℚ) ≤ x := Int.floor_le x
  have h1 : x < (⌊x⌋ : ℚ) + 1 := Int.lt_floor_add_one x
  unfold roundHalfEven
  split
  · next h =>
    rw [abs_le]
    constructor <;> linarith
  · next h =>
    have h2 : (1 : ℚ) / 2 ≤ x - ⌊x⌋ := not_lt.mp h
    split
    · next h' =>
      rw [abs_le]
      constructor <;> push_cast <;> linarith
    · next h' =>
      have h3 : x - (⌊x⌋ : ℚ) = 1 / 2 := le_antisymm (not_lt.mp h') h2
      split <;> (rw [abs_le]; constructor <;> push_cast <;> linarith)

lemma roundHalfEven_le_of_le {x : ℚ} {n : ℤ} (h : x ≤ (n : ℚ)) :
    roundHalfEven x ≤ n := by
  have hf : ⌊x⌋ ≤ n := by
    have := Int.floor_le_floor h
    simpa using this
  have h0 : (⌊x⌋ : ℚ) ≤ x := Int.floor_le x
  have hbump : (1 : ℚ) / 2 ≤ x - ⌊x⌋ → ⌊x⌋ + 1 ≤ n := by
    intro h2
    have : (⌊x⌋ : ℚ) < (n : ℚ) := by linarith
    have : ⌊x⌋ < n := by exact_mod_cast this
    omega
  unfold roundHalfEven
  split
  · exact hf
  · next h' =>
    have h2 := not_lt.mp h'
    split
    · exact hbump h2
    · split
      · exact hf
      · exact hbump h2

lemma le_roundHalfEven_of_le {x : ℚ} {n : ℤ} (h : (n : ℚ) ≤ x) :
    n ≤ roundHalfEven x :=
  le_trans (Int.le_floor.mpr h) (floor_le_roundHalfEven x)

lemma abs_pyRound_two_sub_le (x : ℚ) : |pyRound 2 x - x| ≤ 1 / 200 := by
  have h := abs_roundHalfEven_sub_le (x * 10 ^ 2)
  unfold pyRound
  have key : (roundHalfEven (x * 10 ^ 2) : ℚ) / 10 ^ 2 - x =
      ((roundHalfEven (x * 10 ^ 2) : ℚ) - x * 10 ^ 2) / 10 ^ 2 := by
    ring
  rw [key, abs_div]
  have habs : |(10 : ℚ) ^ 2| = 100 := by norm_num
  rw [habs]
  calc |(roundHalfEven (x * 10 ^ 2) : ℚ) - x * 10 ^ 2| / 100
      ≤ (1 / 2) / 100 := by gcongr
  _ = 1 / 200 := by norm_num

lemma le_pyRound_two {n : ℤ} {x : ℚ} (h : (n : ℚ) ≤ x) :
    (n : ℚ) ≤ pyRound 2 x := by
  unfold pyRound
  rw [le_div_iff₀ (by norm_num : (0 : ℚ) < 10 ^ 2)]
  have hx : ((n * 10 ^ 2 : ℤ) : ℚ) ≤ x * 10 ^ 2 := by
    push_cast
    nlinarith
  have := le_roundHalfEven_of_le hx
  exact_mod_cast this

lemma pyRound_two_le {n : ℤ} {x : ℚ} (h : x ≤ (n : ℚ)) :
    pyRound 2 x ≤ (n : ℚ) := by
  unfold pyRound
  rw [div_le_iff₀ (by norm_num : (0 : ℚ) < 10 ^ 2)]
  have hx : x * 10 ^ 2 ≤ ((n * 10 ^ 2 : ℤ) : ℚ) := by
    push_cast
    nlinarith
  have := roundHalfEven_le_of_le hx
  exact_mod_cast this

/-! ## Shape lemmas about `classify` and `evaluate_risk` -/

lemma evaluate_risk_nil (now : ℚ) :
    evaluate_risk now [] = .ok ⟨.UNKNOWN, .NONE, .noData, none, 0⟩ := rfl

lemma evaluate_risk_cons_ok {now : ℚ} {latest : Obs} {rest : List Obs}
    {c : CoreResult} (h : classify now (latest :: rest) latest = .ok c) :
    evaluate_risk now (latest :: rest) =
      .ok ⟨c.risk_level, c.disaster_type, c.reason,
        some (pyRound 2 c.duration_hrs), pyRound 2 c.confidence⟩ := by
  unfold evaluate_risk
  dsimp only
  rw [h]

lemma evaluate_risk_cons_ok_inv {now : ℚ} {latest : Obs} {rest : List Obs}
    {a : RiskAssessment} (h : evaluate_risk now (latest :: rest) = .ok a) :
    ∃ c, classify now (latest :: rest) latest = .ok c ∧
      a = ⟨c.risk_level, c.disaster_type, c.reason,
        some (pyRound 2 c.duration_hrs), pyRound 2 c.confidence⟩ := by
  unfold evaluate_risk at h
  dsimp only at h
  cases hc : classify now (latest :: rest) latest with
  | error e => rw [hc] at h; cases h
  | ok c =>
    rw [hc] at h
    dsimp only at h
    cases h
    exact ⟨c, rfl, rfl⟩

lemma classify_heatwave_high_eq {now t start : ℚ} {hist : List Obs}
    {latest : Obs} (hp : parse_ts now latest = .ok t)
    (htemp : latest.temp.getD 0 > HEATWAVE_TEMP_THRESHOLD)
    (hscan : scanHeatwaveStart now hist t = .ok start)
    (hdur : pymax 0 (t - start) ≥ 6) :
    classify now hist latest =
      .ok ⟨.HIGH, .HEATWAVE, .heatwaveCritical (pyRound 1 (pymax 0 (t - start))),
        pymax 0 (t - start), pymax 0 (1 - (now - t) / 6)⟩ := by
  unfold classify
  rw [hp]
  dsimp only
  rw [if_pos htemp, hscan]
  dsimp only
  rw [if_pos hdur]

lemma classify_heatwave_med_eq {now t start : ℚ} {hist : List Obs}
    {latest : Obs} (hp : parse_ts now latest = .ok t)
    (htemp : latest.temp.getD 0 > HEATWAVE_TEMP_THRESHOLD)
    (hscan : scanHeatwaveStart now hist t = .ok start)
    (hdur : ¬ pymax 0 (t - start) ≥ 6) :
    classify now hist latest =
      .ok ⟨.MEDIUM, .HEATWAVE, .heatwaveWarning (latest.temp.getD 0),
        pymax 0 (t - start), pymax 0 (1 - (now - t) / 6)⟩ := by
  unfold classify
  rw [hp]
  dsimp only
  rw [if_pos htemp, hscan]
  dsimp only
  rw [if_neg hdur]

lemma classify_cyclone_eq {now t : ℚ} {hist : List Obs} {latest : Obs}
    (hp : parse_ts now latest = .ok t)
    (htemp : ¬ latest.temp.getD 0 > HEATWAVE_TEMP_THRESHOLD)
    (hwind : latest.wind_speed.getD 0 > CYCLONE_WIND_THRESHOLD) :
    classify now hist latest =
      .ok ⟨.HIGH, .CYCLONE, .cycloneAlert (latest.wind_speed.getD 0), 0,
        pymax 0 (1 - (now - t) / 6)⟩ := by
  unfold classify
  rw [hp]
  dsimp only
  rw [if_neg htemp, if_pos hwind]

lemma classify_flood_eq {now t : ℚ} {hist : List Obs} {latest : Obs}
    (hp : parse_ts now latest = .ok t)
    (htemp : ¬ latest.temp.getD 0 > HEATWAVE_TEMP_THRESHOLD)
    (hwind : ¬ latest.wind_speed.getD 0 > CYCLONE_WIND_THRESHOLD)
    (hrain : latest.rain_1h.getD 0 > FLOOD_RAIN_THRESHOLD) :
    classify now hist latest =
      .ok ⟨.HIGH, .FLOOD, .floodAlert (latest.rain_1h.getD 0), 0,
        pymax 0 (1 - (now - t) / 6)⟩ := by
  unfold classify
  rw [hp]
  dsimp only
  rw [if_neg htemp, if_neg hwind, if_pos hrain]

lemma classify_default_eq {now t : ℚ} {hist : List Obs} {latest : Obs}
    (hp : parse_ts now latest = .ok t)
    (htemp : ¬ latest.temp.getD 0 > HEATWAVE_TEMP_THRESHOLD)
    (hwind : ¬ latest.wind_speed.getD 0 > CYCLONE_WIND_THRESHOLD)
    (hrain : ¬ latest.rain_1h.getD 0 > FLOOD_RAIN_THRESHOLD) :
    classify now hist latest =
      if ((hist.take 3).map (fun o => o.rain_1h.getD 0)).sum >
          FLOOD_RAIN_THRESHOLD then
        .ok ⟨.MEDIUM, .HEAVY_RAIN,
          .heavyRainWarning
            (pyRound 1 (((hist.take 3).map (fun o => o.rain_1h.getD 0)).sum)),
          0, pymax 0 (1 - (now - t) / 6)⟩
      else
        .ok ⟨.LOW, .NONE, .normalLimits, 0, pymax 0 (1 - (now - t) / 6)⟩ := by
  unfold classify
  rw [hp]
  dsimp only
  rw [if_neg htemp, if_neg hwind, if_neg hrain]

lemma classify_ok_confidence {now t : ℚ} {hist : List Obs} {latest : Obs}
    {c : CoreResult} (hp : parse_ts now latest = .ok t)
    (h : classify now hist latest = .ok c) :
    c.confidence = pymax 0 (1 - (now - t) / 6) := by
  unfold classify at h
  rw [hp] at h
  dsimp only at h
  split at h
  · split at h
    · cases h
    · split at h <;> (cases h; rfl)
  · split at h
    · cases h; rfl
    · split at h
      · cases h; rfl
      · split at h <;> (cases h; rfl)

lemma classify_ok_level_type {now : ℚ} {hist : List Obs} {latest : Obs}
    {c : CoreResult} (h : classify now hist latest = .ok c) :
    (c.risk_level = .HIGH ∧ c.disaster_type = .HEATWAVE) ∨
    (c.risk_level = .MEDIUM ∧ c.disaster_type = .HEATWAVE) ∨
    (c.risk_level = .HIGH ∧ c.disaster_type = .CYCLONE) ∨
    (c.risk_level = .HIGH ∧ c.disaster_type = .FLOOD) ∨
    (c.risk_level = .MEDIUM ∧ c.disaster_type = .HEAVY_RAIN) ∨
    (c.risk_level = .LOW ∧ c.disaster_type = .NONE) := by
  unfold classify at h
  cases hp : parse_ts now latest with
  | error e => rw [hp] at h; cases h
  | ok t =>
    rw [hp] at h
    dsimp only at h
    split at h
    · split at h
      · cases h
      · split at h <;> (cases h; simp)
    · split at h
      · cases h; simp
      · split at h
        · cases h; simp
        · split at h <;> (cases h; simp)


lemma classify_parse_error {now : ℚ} {hist : List Obs} {latest : Obs}
    (hp : parse_ts now latest = .error ()) :
    classify now hist latest = .error () := by
  unfold classify
  rw [hp]

lemma scanHeatwaveStart_cons_hot {now t u : ℚ} {o : Obs} {l : List Obs}
    (htemp : o.temp.getD 0 > HEATWAVE_TEMP_THRESHOLD)
    (hp : parse_ts now o = .ok u) :
    scanHeatwaveStart now (o :: l) t = scanHeatwaveStart now l u := by
  conv_lhs => rw [scanHeatwaveStart]
  rw [if_pos htemp, hp]

lemma scanHeatwaveStart_ok_of_parses {now : ℚ} :
    ∀ (l : List Obs) (st : ℚ),
      (∀ o ∈ l, ∃ u, parse_ts now o = .ok u) →
      ∃ r, scanHeatwaveStart now l st = .ok r := by
  intro l
  induction l with
  | nil => exact fun st _ => ⟨st, rfl⟩
  | cons o rest ih =>
    intro st hall
    by_cases htemp : o.temp.getD 0 > HEATWAVE_TEMP_THRESHOLD
    · obtain ⟨u, hu⟩ := hall o (List.mem_cons_self o rest)
      rw [scanHeatwaveStart_cons_hot htemp hu]
      exact ih u (fun o' ho' => hall o' (List.mem_cons_of_mem o ho'))
    · refine ⟨st, ?_⟩
      unfold scanHeatwaveStart
      rw [if_neg htemp]

lemma scanHeatwaveStart_le {now B : ℚ} :
    ∀ (l : List Obs) (st r : ℚ), st ≤ B →
      (∀ o ∈ l, ∀ u, parse_ts now o = .ok u → u ≤ B) →
      scanHeatwaveStart now l st = .ok r → r ≤ B := by
  intro l
  induction l with
  | nil =>
    intro st r hst _ h
    cases h
    exact hst
  | cons o rest ih =>
    intro st r hst hall h
    unfold scanHeatwaveStart at h
    split at h
    · cases hp : parse_ts now o with
      | error e => rw [hp] at h; cases h
      | ok u =>
        rw [hp] at h
        exact ih u r (hall o (List.mem_cons_self o rest) u hp)
          (fun o' ho' => hall o' (List.mem_cons_of_mem o ho')) h
    · cases h
      exact hst

/-! ## Claim theorems -/

/-- C5: for every empty history and every evaluation time, `evaluate_risk`
returns risk level `UNKNOWN`, disaster type `NONE`, confidence score `0.0`
and the no-data reason, applying no classification rule. -/
theorem evaluate_risk_empty_history (now : ℚ) :
    evaluate_risk now [] =
      .ok ⟨.UNKNOWN, .NONE, .noData, none, 0⟩ :=
  evaluate_risk_nil now

/-- C3 (code bug evidence): `evaluate_risk` does not survive every malformed
history. An observation whose timestamp is an unparseable string makes the
embedded `datetime.fromisoformat` call raise, so evaluation aborts with an
error instead of falling back to the current time as the claim states. -/
theorem evaluate_risk_unparseable_timestamp_raises :
    evaluate_risk 0 [{ temp := some 45, timestamp := some (.strTS none) }] =
      .error () := by
  norm_num [evaluate_risk, classify, parse_ts, get_ts]

/-- C9: in every assessment the risk level and disaster type are coupled:
the type is `NONE` exactly for levels `UNKNOWN` and `LOW`, level `HIGH` comes
only with `HEATWAVE`, `CYCLONE` or `FLOOD`, and level `MEDIUM` only with
`HEATWAVE` or `HEAVY_RAIN`. -/
theorem risk_level_disaster_type_coupling (now : ℚ) (hist : List Obs)
    (a : RiskAssessment) (h : evaluate_risk now hist = .ok a) :
    (a.disaster_type = .NONE ↔
      (a.risk_level = .UNKNOWN ∨ a.risk_level = .LOW)) ∧
    (a.risk_level = .HIGH →
      a.disaster_type = .HEATWAVE ∨ a.disaster_type = .CYCLONE ∨
        a.disaster_type = .FLOOD) ∧
    (a.risk_level = .MEDIUM →
      a.disaster_type = .HEATWAVE ∨ a.disaster_type = .HEAVY_RAIN) := by
  cases hist with
  | nil =>
    rw [evaluate_risk_nil] at h
    cases h
    simp
  | cons latest rest =>
    obtain ⟨c, hc, ha⟩ := evaluate_risk_cons_ok_inv h
    have hlt := classify_ok_level_type hc
    subst ha
    dsimp only
    rcases hlt with ⟨h1, h2⟩ | ⟨h1, h2⟩ | ⟨h1, h2⟩ | ⟨h1, h2⟩ | ⟨h1, h2⟩ |
      ⟨h1, h2⟩ <;> rw [h1, h2] <;> simp

/-- Witness for C9: the coupling at the concrete empty history. -/
theorem risk_level_disaster_type_coupling_witness :
    ((⟨.UNKNOWN, .NONE, .noData, none, 0⟩ :
        RiskAssessment).disaster_type = .NONE ↔
      ((⟨.UNKNOWN, .NONE, .noData, none, 0⟩ :
          RiskAssessment).risk_level = .UNKNOWN ∨
        (⟨.UNKNOWN, .NONE, .noData, none, 0⟩ :
          RiskAssessment).risk_level = .LOW)) ∧
    ((⟨.UNKNOWN, .NONE, .noData, none, 0⟩ :
        RiskAssessment).risk_level = .HIGH →
      (⟨.UNKNOWN, .NONE, .noData, none, 0⟩ :
          RiskAssessment).disaster_type = .HEATWAVE ∨
        (⟨.UNKNOWN, .NONE, .noData, none, 0⟩ :
          RiskAssessment).disaster_type = .CYCLONE ∨
        (⟨.UNKNOWN, .NONE, .noData, none, 0⟩ :
          RiskAssessment).disaster_type = .FLOOD) ∧
    ((⟨.UNKNOWN, .NONE, .noData, none, 0⟩ :
        RiskAssessment).risk_level = .MEDIUM →
      (⟨.UNKNOWN, .NONE, .noData, none, 0⟩ :
          RiskAssessment).disaster_type = .HEATWAVE ∨
        (⟨.UNKNOWN, .NONE, .noData, none, 0⟩ :
          RiskAssessment).disaster_type = .HEAVY_RAIN) :=
  risk_level_disaster_type_coupling 0 [] _ rfl

/-- C10: for every non-empty history the returned confidence score and
persistence duration are the 2-decimal roundings of the values the
classification computed (so each differs from the exact value by at most
1/200 = 0.005), while the risk level, disaster type and reason are exactly
those computed from the unrounded values. -/
theorem output_rounding (now : ℚ) (latest : Obs) (rest : List Obs)
    (a : RiskAssessment) (h : evaluate_risk now (latest :: rest) = .ok a) :
    ∃ c : CoreResult, classify now (latest :: rest) latest = .ok c ∧
      a.confidence_score = pyRound 2 c.confidence ∧
      a.persistence_duration_hrs = some (pyRound 2 c.duration_hrs) ∧
      |a.confidence_score - c.confidence| ≤ 1 / 200 ∧
      |pyRound 2 c.duration_hrs - c.duration_hrs| ≤ 1 / 200 ∧
      a.risk_level = c.risk_level ∧ a.disaster_type = c.disaster_type ∧
      a.reason = c.reason := by
  obtain ⟨c, hc, ha⟩ := evaluate_risk_cons_ok_inv h
  subst ha
  exact ⟨c, hc, rfl, rfl, abs_pyRound_two_sub_le c.confidence,
    abs_pyRound_two_sub_le c.duration_hrs, rfl, rfl, rfl⟩

/-- Witness for C10 at a concrete one-element history. -/
theorem output_rounding_witness :
    ∃ c : CoreResult,
      classify 0 [{ timestamp := some (.dtTS 0) }]
          { timestamp := some (.dtTS 0) } = .ok c ∧
      (⟨.LOW, .NONE, .normalLimits, some 0, 1⟩ :
          RiskAssessment).confidence_score = pyRound 2 c.confidence ∧
      (⟨.LOW, .NONE, .normalLimits, some 0, 1⟩ :
          RiskAssessment).persistence_duration_hrs =
        some (pyRound 2 c.duration_hrs) ∧
      |(⟨.LOW, .NONE, .normalLimits, some 0, 1⟩ :
          RiskAssessment).confidence_score - c.confidence| ≤ 1 / 200 ∧
      |pyRound 2 c.duration_hrs - c.duration_hrs| ≤ 1 / 200 ∧
      (⟨.LOW, .NONE, .normalLimits, some 0, 1⟩ :
          RiskAssessment).risk_level = c.risk_level ∧
      (⟨.LOW, .NONE, .normalLimits, some 0, 1⟩ :
          RiskAssessment).disaster_type = c.disaster_type ∧
      (⟨.LOW, .NONE, .normalLimits, some 0, 1⟩ :
          RiskAssessment).reason = c.reason :=
  output_rounding 0 _ [] _ (by
    norm_num [evaluate_risk, classify, parse_ts, get_ts, pymax, pyRound,
      roundHalfEven, HEATWAVE_TEMP_THRESHOLD, CYCLONE_WIND_THRESHOLD,
      FLOOD_RAIN_THRESHOLD])


/-- C2 counterexample: the source only floors the confidence at 0 and never
clamps it at 1, so a latest observation 6 hours in the future of "now"
yields a returned confidence score of 2.0, outside `[0.0, 1.0]` and different
from `clamp(1 - gap/6, 0, 1) = 1`. -/
theorem confidence_above_one_counterexample :
    evaluate_risk 0 [{ timestamp := some (.dtTS 6) }] =
      .ok ⟨.LOW, .NONE, .normalLimits, some 0, 2⟩ ∧ ¬ ((2 : ℚ) ≤ 1) := by
  constructor
  · norm_num [evaluate_risk, classify, parse_ts, get_ts, pymax, pyRound,
      roundHalfEven, HEATWAVE_TEMP_THRESHOLD, CYCLONE_WIND_THRESHOLD,
      FLOOD_RAIN_THRESHOLD]
  · norm_num

/-- C2 as amended: for every non-empty history the returned confidence score
is the 2-decimal rounding of `max(0, 1 - time_gap_hours/6)` (no upper clamp),
where the gap is measured from the latest observation's parsed timestamp; it
lies in `[0, 1]` whenever the latest observation is not in the future, is
exactly 1 at age 0, exactly 0 at age ≥ 6 hours and follows the rounded
linear decay in between (1/2 at age 3). -/
theorem confidence_decay (now t : ℚ) (latest : Obs) (rest : List Obs)
    (a : RiskAssessment) (hp : parse_ts now latest = .ok t)
    (h : evaluate_risk now (latest :: rest) = .ok a) :
    a.confidence_score = pyRound 2 (pymax 0 (1 - (now - t) / 6)) ∧
    (0 ≤ now - t → 0 ≤ a.confidence_score ∧ a.confidence_score ≤ 1) ∧
    (now - t = 0 → a.confidence_score = 1) ∧
    (6 ≤ now - t → a.confidence_score = 0) ∧
    (now - t = 3 → a.confidence_score = 1 / 2) := by
  obtain ⟨c, hc, ha⟩ := evaluate_risk_cons_ok_inv h
  have hconf := classify_ok_confidence hp hc
  subst ha
  dsimp only
  rw [hconf]
  refine ⟨rfl, ?_, ?_, ?_, ?_⟩
  · intro hgap
    constructor
    · have h0 : ((0 : ℤ) : ℚ) ≤ pymax 0 (1 - (now - t) / 6) := by
        simpa using pymax_nonneg (1 - (now - t) / 6)
      simpa using le_pyRound_two h0
    · have h1 : pymax 0 (1 - (now - t) / 6) ≤ ((1 : ℤ) : ℚ) := by
        push_cast
        refine pymax_le (by norm_num) ?_
        have : 0 ≤ (now - t) / 6 := by positivity
        linarith
      simpa using pyRound_two_le h1
  · intro h0
    rw [h0]
    norm_num [pymax, pyRound, roundHalfEven]
  · intro h6
    have hneg : ¬ (0 : ℚ) < 1 - (now - t) / 6 := by
      push_neg
      have : (1 : ℚ) ≤ (now - t) / 6 := by linarith
      linarith
    rw [pymax, if_neg hneg]
    norm_num [pyRound, roundHalfEven]
  · intro h3
    rw [h3]
    norm_num [pymax, pyRound, roundHalfEven]

/-- Witness for C2 (amended) at a fresh one-element history at age 0. -/
theorem confidence_decay_witness :
    (⟨.LOW, .NONE, .normalLimits, some 0, 1⟩ :
        RiskAssessment).confidence_score =
      pyRound 2 (pymax 0 (1 - ((0 : ℚ) - 0) / 6)) ∧
    (0 ≤ (0 : ℚ) - 0 →
      0 ≤ (⟨.LOW, .NONE, .normalLimits, some 0, 1⟩ :
          RiskAssessment).confidence_score ∧
      (⟨.LOW, .NONE, .normalLimits, some 0, 1⟩ :
          RiskAssessment).confidence_score ≤ 1) ∧
    ((0 : ℚ) - 0 = 0 →
      (⟨.LOW, .NONE, .normalLimits, some 0, 1⟩ :
          RiskAssessment).confidence_score = 1) ∧
    (6 ≤ (0 : ℚ) - 0 →
      (⟨.LOW, .NONE, .normalLimits, some 0, 1⟩ :
          RiskAssessment).confidence_score = 0) ∧
    ((0 : ℚ) - 0 = 3 →
      (⟨.LOW, .NONE, .normalLimits, some 0, 1⟩ :
          RiskAssessment).confidence_score = 1 / 2) :=
  confidence_decay 0 0 { timestamp := some (.dtTS 0) } [] _ rfl (by
    norm_num [evaluate_risk, classify, parse_ts, get_ts, pymax, pyRound,
      roundHalfEven, HEATWAVE_TEMP_THRESHOLD, CYCLONE_WIND_THRESHOLD,
      FLOOD_RAIN_THRESHOLD])

/-- C4: classification priority. A latest reading meeting both the cyclone
and the flood conditions but not the heatwave condition is classified
CYCLONE (never FLOOD); and a latest temperature above the heatwave threshold
forces the HEATWAVE branch regardless of wind and rain. -/
theorem classification_priority_order (now : ℚ) (latest : Obs)
    (rest : List Obs) (a : RiskAssessment) :
    (¬ latest.temp.getD 0 > HEATWAVE_TEMP_THRESHOLD →
      latest.wind_speed.getD 0 > CYCLONE_WIND_THRESHOLD →
      latest.rain_1h.getD 0 > FLOOD_RAIN_THRESHOLD →
      evaluate_risk now (latest :: rest) = .ok a →
      a.disaster_type = .CYCLONE ∧ a.risk_level = .HIGH ∧
        a.disaster_type ≠ .FLOOD) ∧
    (latest.temp.getD 0 > HEATWAVE_TEMP_THRESHOLD →
      evaluate_risk now (latest :: rest) = .ok a →
      a.disaster_type = .HEATWAVE) := by
  constructor
  · intro htemp hwind _hrain h
    obtain ⟨c, hc, ha⟩ := evaluate_risk_cons_ok_inv h
    cases hp : parse_ts now latest with
    | error e =>
      cases e
      rw [classify_parse_error hp] at hc
      cases hc
    | ok t =>
      rw [classify_cyclone_eq hp htemp hwind] at hc
      cases hc
      subst ha
      refine ⟨rfl, rfl, ?_⟩
      simp
  · intro htemp h
    obtain ⟨c, hc, ha⟩ := evaluate_risk_cons_ok_inv h
    cases hp : parse_ts now latest with
    | error e =>
      cases e
      rw [classify_parse_error hp] at hc
      cases hc
    | ok t =>
      unfold classify at hc
      rw [hp] at hc
      dsimp only at hc
      rw [if_pos htemp] at hc
      cases hs : scanHeatwaveStart now (latest :: rest) t with
      | error e => rw [hs] at hc; cases hc
      | ok start =>
        rw [hs] at hc
        dsimp only at hc
        split at hc <;> (cases hc; subst ha; rfl)

/-- Witness for C4: a reading with wind 80 and rain 60 at temperature 30
classifies as CYCLONE, and the same wind and rain at temperature 45
classify as HEATWAVE. -/
theorem classification_priority_order_witness :
    ((⟨.HIGH, .CYCLONE, .cycloneAlert 80, some 0, 1⟩ :
        RiskAssessment).disaster_type = .CYCLONE ∧
      (⟨.HIGH, .CYCLONE, .cycloneAlert 80, some 0, 1⟩ :
        RiskAssessment).risk_level = .HIGH ∧
      (⟨.HIGH, .CYCLONE, .cycloneAlert 80, some 0, 1⟩ :
        RiskAssessment).disaster_type ≠ .FLOOD) ∧
    (⟨.MEDIUM, .HEATWAVE, .heatwaveWarning 45, some 0, 1⟩ :
        RiskAssessment).disaster_type = .HEATWAVE :=
  ⟨(classification_priority_order 0
      { temp := some 30, wind_speed := some 80, rain_1h := some 60,
        timestamp := some (.dtTS 0) } [] _).1
    (by norm_num [HEATWAVE_TEMP_THRESHOLD])
    (by norm_num [CYCLONE_WIND_THRESHOLD])
    (by norm_num [FLOOD_RAIN_THRESHOLD])
    (by norm_num [evaluate_risk, classify, parse_ts, get_ts, pymax, pyRound,
      roundHalfEven, HEATWAVE_TEMP_THRESHOLD, CYCLONE_WIND_THRESHOLD,
      FLOOD_RAIN_THRESHOLD]),
  (classification_priority_order 0
      { temp := some 45, wind_speed := some 80, rain_1h := some 60,
        timestamp := some (.dtTS 0) } [] _).2
    (by norm_num [HEATWAVE_TEMP_THRESHOLD])
    (by norm_num [evaluate_risk, classify, parse_ts, get_ts,
      scanHeatwaveStart, pymax, pyRound, roundHalfEven,
      HEATWAVE_TEMP_THRESHOLD, CYCLONE_WIND_THRESHOLD,
      FLOOD_RAIN_THRESHOLD])⟩

/-- C6: with the heatwave condition false on the latest reading, wind above
70 yields HIGH/CYCLONE with the reason citing the wind speed; wind at most
70 with rain above 50 yields HIGH/FLOOD with the reason citing the rain
rate. -/
theorem cyclone_and_flood_branches (now : ℚ) (latest : Obs)
    (rest : List Obs) (a : RiskAssessment)
    (htemp : ¬ latest.temp.getD 0 > HEATWAVE_TEMP_THRESHOLD)
    (h : evaluate_risk now (latest :: rest) = .ok a) :
    (latest.wind_speed.getD 0 > CYCLONE_WIND_THRESHOLD →
      a.risk_level = .HIGH ∧ a.disaster_type = .CYCLONE ∧
        a.reason = .cycloneAlert (latest.wind_speed.getD 0)) ∧
    (¬ latest.wind_speed.getD 0 > CYCLONE_WIND_THRESHOLD →
      latest.rain_1h.getD 0 > FLOOD_RAIN_THRESHOLD →
      a.risk_level = .HIGH ∧ a.disaster_type = .FLOOD ∧
        a.reason = .floodAlert (latest.rain_1h.getD 0)) := by
  obtain ⟨c, hc, ha⟩ := evaluate_risk_cons_ok_inv h
  cases hp : parse_ts now latest with
  | error e =>
    cases e
    rw [classify_parse_error hp] at hc
    cases hc
  | ok t =>
    constructor
    · intro hwind
      rw [classify_cyclone_eq hp htemp hwind] at hc
      cases hc
      subst ha
      exact ⟨rfl, rfl, rfl⟩
    · intro hwind hrain
      rw [classify_flood_eq hp htemp hwind hrain] at hc
      cases hc
      subst ha
      exact ⟨rfl, rfl, rfl⟩

/-- Witness for C6: wind 85 at temperature 30 gives CYCLONE; wind 10 with
rain 60 gives FLOOD. -/
theorem cyclone_and_flood_branches_witness :
    ((⟨.HIGH, .CYCLONE, .cycloneAlert 85, some 0, 1⟩ :
        RiskAssessment).risk_level = .HIGH ∧
      (⟨.HIGH, .CYCLONE, .cycloneAlert 85, some 0, 1⟩ :
        RiskAssessment).disaster_type = .CYCLONE ∧
      (⟨.HIGH, .CYCLONE, .cycloneAlert 85, some 0, 1⟩ :
          RiskAssessment).reason = .cycloneAlert 85) ∧
    ((⟨.HIGH, .FLOOD, .floodAlert 60, some 0, 1⟩ :
        RiskAssessment).risk_level = .HIGH ∧
      (⟨.HIGH, .FLOOD, .floodAlert 60, some 0, 1⟩ :
        RiskAssessment).disaster_type = .FLOOD ∧
      (⟨.HIGH, .FLOOD, .floodAlert 60, some 0, 1⟩ :
          RiskAssessment).reason = .floodAlert 60) := by
  constructor
  · have hw := (cyclone_and_flood_branches 0
      { temp := some 30, wind_speed := some 85, timestamp := some (.dtTS 0) }
      [] ⟨.HIGH, .CYCLONE, .cycloneAlert 85, some 0, 1⟩
      (by norm_num [HEATWAVE_TEMP_THRESHOLD])
      (by norm_num [evaluate_risk, classify, parse_ts, get_ts, pymax,
        pyRound, roundHalfEven, HEATWAVE_TEMP_THRESHOLD,
        CYCLONE_WIND_THRESHOLD, FLOOD_RAIN_THRESHOLD])).1
    exact hw (by norm_num [CYCLONE_WIND_THRESHOLD])
  · have hf := (cyclone_and_flood_branches 0
      { temp := some 30, wind_speed := some 10, rain_1h := some 60,
        timestamp := some (.dtTS 0) }
      [] ⟨.HIGH, .FLOOD, .floodAlert 60, some 0, 1⟩
      (by norm_num [HEATWAVE_TEMP_THRESHOLD])
      (by norm_num [evaluate_risk, classify, parse_ts, get_ts, pymax,
        pyRound, roundHalfEven, HEATWAVE_TEMP_THRESHOLD,
        CYCLONE_WIND_THRESHOLD, FLOOD_RAIN_THRESHOLD])).2
    exact hf (by norm_num [CYCLONE_WIND_THRESHOLD])
      (by norm_num [FLOOD_RAIN_THRESHOLD])

/-- C7: when the heatwave, cyclone and flood conditions are all false on the
latest reading, the sum of the rain rates of the (up to) three most recent
observations decides the result: strictly above 50 gives MEDIUM/HEAVY_RAIN
with the reason citing the cumulative total, otherwise LOW/NONE. -/
theorem heavy_rain_early_warning (now : ℚ) (latest : Obs) (rest : List Obs)
    (a : RiskAssessment)
    (htemp : ¬ latest.temp.getD 0 > HEATWAVE_TEMP_THRESHOLD)
    (hwind : ¬ latest.wind_speed.getD 0 > CYCLONE_WIND_THRESHOLD)
    (hrain : ¬ latest.rain_1h.getD 0 > FLOOD_RAIN_THRESHOLD)
    (h : evaluate_risk now (latest :: rest) = .ok a) :
    ((((latest :: rest).take 3).map (fun o => o.rain_1h.getD 0)).sum >
        FLOOD_RAIN_THRESHOLD →
      a.risk_level = .MEDIUM ∧ a.disaster_type = .HEAVY_RAIN ∧
        a.reason = .heavyRainWarning (pyRound 1
          ((((latest :: rest).take 3).map (fun o => o.rain_1h.getD 0)).sum))) ∧
    (¬ (((latest :: rest).take 3).map (fun o => o.rain_1h.getD 0)).sum >
        FLOOD_RAIN_THRESHOLD →
      a.risk_level = .LOW ∧ a.disaster_type = .NONE ∧
        a.reason = .normalLimits) := by
  obtain ⟨c, hc, ha⟩ := evaluate_risk_cons_ok_inv h
  cases hp : parse_ts now latest with
  | error e =>
    cases e
    rw [classify_parse_error hp] at hc
    cases hc
  | ok t =>
    rw [classify_default_eq hp htemp hwind hrain] at hc
    constructor
    · intro htot
      rw [if_pos htot] at hc
      cases hc
      subst ha
      exact ⟨rfl, rfl, rfl⟩
    · intro htot
      rw [if_neg htot] at hc
      cases hc
      subst ha
      exact ⟨rfl, rfl, rfl⟩


/-- A history whose three most recent rain readings sum to 55 while no
instantaneous threshold fires. -/
def medRainHist : List Obs :=
  [{ rain_1h := some 10, timestamp := some (.dtTS 0) },
   { rain_1h := some 25 }, { rain_1h := some 20 }]

/-- Witness for C7: the cumulative 55 mm history gives MEDIUM/HEAVY_RAIN and
a quiet single reading gives LOW/NONE. -/
theorem heavy_rain_early_warning_witness :
    (((medRainHist.take 3).map (fun o => o.rain_1h.getD 0)).sum >
        FLOOD_RAIN_THRESHOLD →
      (⟨.MEDIUM, .HEAVY_RAIN, .heavyRainWarning (pyRound 1
          (((medRainHist.take 3).map (fun o => o.rain_1h.getD 0)).sum)),
        some 0, 1⟩ : RiskAssessment).risk_level = .MEDIUM ∧
      (⟨.MEDIUM, .HEAVY_RAIN, .heavyRainWarning (pyRound 1
          (((medRainHist.take 3).map (fun o => o.rain_1h.getD 0)).sum)),
        some 0, 1⟩ : RiskAssessment).disaster_type = .HEAVY_RAIN ∧
      (⟨.MEDIUM, .HEAVY_RAIN, .heavyRainWarning (pyRound 1
          (((medRainHist.take 3).map (fun o => o.rain_1h.getD 0)).sum)),
        some 0, 1⟩ : RiskAssessment).reason = .heavyRainWarning (pyRound 1
          (((medRainHist.take 3).map (fun o => o.rain_1h.getD 0)).sum))) ∧
    (¬ ((medRainHist.take 3).map (fun o => o.rain_1h.getD 0)).sum >
        FLOOD_RAIN_THRESHOLD →
      (⟨.MEDIUM, .HEAVY_RAIN, .heavyRainWarning (pyRound 1
          (((medRainHist.take 3).map (fun o => o.rain_1h.getD 0)).sum)),
        some 0, 1⟩ : RiskAssessment).risk_level = .LOW ∧
      (⟨.MEDIUM, .HEAVY_RAIN, .heavyRainWarning (pyRound 1
          (((medRainHist.take 3).map (fun o => o.rain_1h.getD 0)).sum)),
        some 0, 1⟩ : RiskAssessment).disaster_type = .NONE ∧
      (⟨.MEDIUM, .HEAVY_RAIN, .heavyRainWarning (pyRound 1
          (((medRainHist.take 3).map (fun o => o.rain_1h.getD 0)).sum)),
        some 0, 1⟩ : RiskAssessment).reason = .normalLimits) :=
  heavy_rain_early_warning 0 { rain_1h := some 10, timestamp := some (.dtTS 0) }
    [{ rain_1h := some 25 }, { rain_1h := some 20 }] _
    (by norm_num [HEATWAVE_TEMP_THRESHOLD])
    (by norm_num [CYCLONE_WIND_THRESHOLD])
    (by norm_num [FLOOD_RAIN_THRESHOLD])
    (by
      have hp : parse_ts 0
          { rain_1h := some 10, timestamp := some (.dtTS 0) } = .ok 0 := rfl
      rw [evaluate_risk_cons_ok
        ((classify_default_eq hp (by norm_num [HEATWAVE_TEMP_THRESHOLD])
            (by norm_num [CYCLONE_WIND_THRESHOLD])
            (by norm_num [FLOOD_RAIN_THRESHOLD])).trans
          (if_pos (by norm_num [FLOOD_RAIN_THRESHOLD])))]
      norm_num [medRainHist, pymax, pyRound, roundHalfEven])

/-- C8: a latest temperature above the threshold whose consecutive
above-threshold run spans less than 6 hours gives MEDIUM/HEATWAVE with the
reason citing the instantaneous temperature; in particular a single
observation at 41 °C gives MEDIUM/HEATWAVE with persistence 0. -/
theorem heatwave_monitoring_below_persistence :
    (∀ (now t start : ℚ) (latest : Obs) (rest : List Obs)
        (a : RiskAssessment),
      latest.temp.getD 0 > HEATWAVE_TEMP_THRESHOLD →
      parse_ts now latest = .ok t →
      scanHeatwaveStart now (latest :: rest) t = .ok start →
      pymax 0 (t - start) < 6 →
      evaluate_risk now (latest :: rest) = .ok a →
      a.risk_level = .MEDIUM ∧ a.disaster_type = .HEATWAVE ∧
        a.reason = .heatwaveWarning (latest.temp.getD 0) ∧
        a.persistence_duration_hrs =
          some (pyRound 2 (pymax 0 (t - start)))) ∧
    (∀ now t : ℚ,
      evaluate_risk now [{ temp := some 41, timestamp := some (.dtTS t) }] =
        .ok ⟨.MEDIUM, .HEATWAVE, .heatwaveWarning 41, some 0,
          pyRound 2 (pymax 0 (1 - (now - t) / 6))⟩) := by
  constructor
  · intro now t start latest rest a htemp hp hscan hdur h
    obtain ⟨c, hc, ha⟩ := evaluate_risk_cons_ok_inv h
    rw [classify_heatwave_med_eq hp htemp hscan (not_le.mpr hdur)] at hc
    cases hc
    subst ha
    exact ⟨rfl, rfl, rfl, rfl⟩
  · intro now t
    have hp : parse_ts now { temp := some 41, timestamp := some (.dtTS t) } =
        .ok t := rfl
    have htemp : ({ temp := some 41, timestamp := some (.dtTS t) } :
        Obs).temp.getD 0 > HEATWAVE_TEMP_THRESHOLD := by
      norm_num [HEATWAVE_TEMP_THRESHOLD]
    have hscan : scanHeatwaveStart now
        [{ temp := some 41, timestamp := some (.dtTS t) }] t = .ok t := by
      rw [scanHeatwaveStart_cons_hot htemp hp]
      rfl
    have hdur : ¬ pymax 0 (t - t) ≥ 6 := by
      norm_num [pymax, sub_self]
    rw [evaluate_risk_cons_ok (classify_heatwave_med_eq hp htemp hscan hdur)]
    norm_num [pymax, pyRound, roundHalfEven, sub_self,
      HEATWAVE_TEMP_THRESHOLD]

/-- Witness for C8 at the single 41 °C observation. -/
theorem heatwave_monitoring_below_persistence_witness :
    ((⟨.MEDIUM, .HEATWAVE, .heatwaveWarning 41, some 0, 1⟩ :
        RiskAssessment).risk_level = .MEDIUM ∧
      (⟨.MEDIUM, .HEATWAVE, .heatwaveWarning 41, some 0, 1⟩ :
        RiskAssessment).disaster_type = .HEATWAVE ∧
      (⟨.MEDIUM, .HEATWAVE, .heatwaveWarning 41, some 0, 1⟩ :
          RiskAssessment).reason = .heatwaveWarning
            (({ temp := some 41, timestamp := some (.dtTS 0) } :
              Obs).temp.getD 0) ∧
      (⟨.MEDIUM, .HEATWAVE, .heatwaveWarning 41, some 0, 1⟩ :
          RiskAssessment).persistence_duration_hrs =
        some (pyRound 2 (pymax 0 ((0 : ℚ) - 0)))) ∧
    evaluate_risk 0 [{ temp := some 41, timestamp := some (.dtTS 0) }] =
      .ok ⟨.MEDIUM, .HEATWAVE, .heatwaveWarning 41, some 0,
        pyRound 2 (pymax 0 (1 - ((0 : ℚ) - 0) / 6))⟩ :=
  ⟨heatwave_monitoring_below_persistence.1 0 0 0
      { temp := some 41, timestamp := some (.dtTS 0) } [] _
      (by norm_num [HEATWAVE_TEMP_THRESHOLD]) rfl
      (by norm_num [scanHeatwaveStart, parse_ts, get_ts,
        HEATWAVE_TEMP_THRESHOLD])
      (by norm_num [pymax])
      (by norm_num [evaluate_risk, classify, parse_ts, get_ts,
        scanHeatwaveStart, pymax, pyRound, roundHalfEven,
        HEATWAVE_TEMP_THRESHOLD]),
    heatwave_monitoring_below_persistence.2 0 0⟩

/-- Six hourly readings all above 40 °C, newest first. -/
def sixAbove : List Obs :=
  [{ temp := some 41, timestamp := some (.dtTS 0) },
   { temp := some 41, timestamp := some (.dtTS (-1)) },
   { temp := some 41, timestamp := some (.dtTS (-2)) },
   { temp := some 41, timestamp := some (.dtTS (-3)) },
   { temp := some 41, timestamp := some (.dtTS (-4)) },
   { temp := some 41, timestamp := some (.dtTS (-5)) }]

/-- C1 counterexample: six hourly entries above threshold span only 5 hours,
so the code returns MEDIUM (with persistence 5), not HIGH with
persistence ≥ 6 as the claim states. -/
theorem heatwave_six_hourly_counterexample :
    evaluate_risk 0 sixAbove =
      .ok ⟨.MEDIUM, .HEATWAVE, .heatwaveWarning 41, some 5, 1⟩ ∧
    RiskLevel.MEDIUM ≠ RiskLevel.HIGH ∧ ¬ ((5 : ℚ) ≥ 6) := by
  refine ⟨?_, by simp, by norm_num⟩
  norm_num [sixAbove, evaluate_risk, classify, parse_ts, get_ts,
    scanHeatwaveStart, pymax, pyRound, roundHalfEven,
    HEATWAVE_TEMP_THRESHOLD]

/-- C1 as amended: seven hourly entries (indices 0 through 6) above the
threshold are needed. If they are spaced one hour apart, all exceed 40 °C,
and every deeper observation parses to a time at or before the seventh entry
(the newest-first ordering invariant), then the result is HIGH/HEATWAVE, the
reason cites the persistence duration, and both the duration and its
2-decimal rounding are at least 6 hours. -/
theorem heatwave_persistence_high (now t0 : ℚ)
    (o0 o1 o2 o3 o4 o5 o6 : Obs) (rest : List Obs)
    (h0 : o0.temp.getD 0 > HEATWAVE_TEMP_THRESHOLD)
    (h1 : o1.temp.getD 0 > HEATWAVE_TEMP_THRESHOLD)
    (h2 : o2.temp.getD 0 > HEATWAVE_TEMP_THRESHOLD)
    (h3 : o3.temp.getD 0 > HEATWAVE_TEMP_THRESHOLD)
    (h4 : o4.temp.getD 0 > HEATWAVE_TEMP_THRESHOLD)
    (h5 : o5.temp.getD 0 > HEATWAVE_TEMP_THRESHOLD)
    (h6 : o6.temp.getD 0 > HEATWAVE_TEMP_THRESHOLD)
    (p0 : parse_ts now o0 = .ok t0)
    (p1 : parse_ts now o1 = .ok (t0 - 1))
    (p2 : parse_ts now o2 = .ok (t0 - 2))
    (p3 : parse_ts now o3 = .ok (t0 - 3))
    (p4 : parse_ts now o4 = .ok (t0 - 4))
    (p5 : parse_ts now o5 = .ok (t0 - 5))
    (p6 : parse_ts now o6 = .ok (t0 - 6))
    (hrest : ∀ o ∈ rest, ∃ u, parse_ts now o = .ok u ∧ u ≤ t0 - 6) :
    ∃ dur : ℚ, 6 ≤ dur ∧ 6 ≤ pyRound 2 dur ∧
      evaluate_risk now (o0 :: o1 :: o2 :: o3 :: o4 :: o5 :: o6 :: rest) =
        .ok ⟨.HIGH, .HEATWAVE, .heatwaveCritical (pyRound 1 dur),
          some (pyRound 2 dur), pyRound 2 (pymax 0 (1 - (now - t0) / 6))⟩ := by
  have hchain : scanHeatwaveStart now
      (o0 :: o1 :: o2 :: o3 :: o4 :: o5 :: o6 :: rest) t0 =
      scanHeatwaveStart now rest (t0 - 6) := by
    rw [scanHeatwaveStart_cons_hot h0 p0, scanHeatwaveStart_cons_hot h1 p1,
      scanHeatwaveStart_cons_hot h2 p2, scanHeatwaveStart_cons_hot h3 p3,
      scanHeatwaveStart_cons_hot h4 p4, scanHeatwaveStart_cons_hot h5 p5,
      scanHeatwaveStart_cons_hot h6 p6]
  obtain ⟨r, hr⟩ := scanHeatwaveStart_ok_of_parses rest (t0 - 6)
    (fun o ho => ⟨(hrest o ho).choose, (hrest o ho).choose_spec.1⟩)
  have hrle : r ≤ t0 - 6 := by
    refine scanHeatwaveStart_le rest (t0 - 6) r le_rfl ?_ hr
    intro o ho u hu
    obtain ⟨u', hu', hle⟩ := hrest o ho
    rw [hu] at hu'
    cases hu'
    exact hle
  have hscan : scanHeatwaveStart now
      (o0 :: o1 :: o2 :: o3 :: o4 :: o5 :: o6 :: rest) t0 = .ok r := by
    rw [hchain]
    exact hr
  have hd6 : (6 : ℚ) ≤ pymax 0 (t0 - r) := by
    rw [pymax_eq_max]
    exact le_trans (by linarith) (le_max_right (0 : ℚ) (t0 - r))
  refine ⟨pymax 0 (t0 - r), hd6, ?_, ?_⟩
  · have h6' : ((6 : ℤ) : ℚ) ≤ pymax 0 (t0 - r) := by exact_mod_cast hd6
    have := le_pyRound_two h6'
    exact_mod_cast this
  · rw [evaluate_risk_cons_ok (classify_heatwave_high_eq p0 h0 hscan hd6)]

/-- Seven hourly readings all above 40 °C, newest first. -/
def sevenAbove : List Obs :=
  [{ temp := some 41, timestamp := some (.dtTS 0) },
   { temp := some 41, timestamp := some (.dtTS (-1)) },
   { temp := some 41, timestamp := some (.dtTS (-2)) },
   { temp := some 41, timestamp := some (.dtTS (-3)) },
   { temp := some 41, timestamp := some (.dtTS (-4)) },
   { temp := some 41, timestamp := some (.dtTS (-5)) },
   { temp := some 41, timestamp := some (.dtTS (-6)) }]

/-- Witness for C1 (amended): seven hourly 41 °C readings ending now. -/
theorem heatwave_persistence_high_witness :
    ∃ dur : ℚ, 6 ≤ dur ∧ 6 ≤ pyRound 2 dur ∧
      evaluate_risk 0 sevenAbove =
        .ok ⟨.HIGH, .HEATWAVE, .heatwaveCritical (pyRound 1 dur),
          some (pyRound 2 dur),
          pyRound 2 (pymax 0 (1 - ((0 : ℚ) - 0) / 6))⟩ :=
  heatwave_persistence_high 0 0
    { temp := some 41, timestamp := some (.dtTS 0) }
    { temp := some 41, timestamp := some (.dtTS (-1)) }
    { temp := some 41, timestamp := some (.dtTS (-2)) }
    { temp := some 41, timestamp := some (.dtTS (-3)) }
    { temp := some 41, timestamp := some (.dtTS (-4)) }
    { temp := some 41, timestamp := some (.dtTS (-5)) }
    { temp := some 41, timestamp := some (.dtTS (-6)) } []
    (by norm_num [HEATWAVE_TEMP_THRESHOLD])
    (by norm_num [HEATWAVE_TEMP_THRESHOLD])
    (by norm_num [HEATWAVE_TEMP_THRESHOLD])
    (by norm_num [HEATWAVE_TEMP_THRESHOLD])
    (by norm_num [HEATWAVE_TEMP_THRESHOLD])
    (by norm_num [HEATWAVE_TEMP_THRESHOLD])
    (by norm_num [HEATWAVE_TEMP_THRESHOLD])
    (by norm_num [parse_ts, get_ts])
    (by norm_num [parse_ts, get_ts])
    (by norm_num [parse_ts, get_ts])
    (by norm_num [parse_ts, get_ts])
    (by norm_num [parse_ts, get_ts])
    (by norm_num [parse_ts, get_ts])
    (by norm_num [parse_ts, get_ts])
    (by simp)

end DisasterManagement
